import Mathlib

/-!
Shallow embedding of the ladybug Python-compatibility shim:
src/include/py_compat.c, src/include/py_compat.h and
src/include/python_wrapper.h.

The shim is a flat set of forwarding functions over the embedded CPython
runtime.  The runtime itself is external to the repository, so it is
modelled here as an explicit state: a heap mapping opaque handles
(addresses) to objects carrying a type descriptor and a reference count,
the addresses of the three canonical singletons, the error indicator, the
current execution-context slot of the calling native thread, the map from
execution contexts to their owning interpreters, and a trace of the
runtime primitives that have been invoked.  Each runtime primitive the
shim forwards to is modelled from its documented behaviour; each shim
function is then translated from the C source, one Lean definition per
source copy (namespaces PyCompatC, PyCompatH, PythonWrapperH).
-/

/-- Opaque object handles cross the FFI boundary as plain addresses. -/
abbrev Handle := Nat

/-- The fixed set of built-in categories the shim's type-check predicates
cover (plus the null-singleton type). -/
inductive BuiltinCat where
  | noneT
  | boolT
  | bytesT
  | capsuleT
  | coroT
  | dictT
  | floatT
  | listT
  | longT
  | tupleT
  | unicodeT
deriving DecidableEq, Repr

/-- Runtime type descriptor of an object: which built-in category the
object's type is exactly (if any), and the categories of which the type
is an instance (its fast-subclass closure, itself included). -/
structure TypeInfo where
  exactCat : Option BuiltinCat
  instanceOf : List BuiltinCat
deriving DecidableEq, Repr

/-- A runtime-owned boxed object: its type descriptor and its reference
count. -/
structure PyObjectData where
  ty : TypeInfo
  refcount : Nat
deriving DecidableEq, Repr

/-- Events recording which runtime primitives the shim invoked; used to
state that a shim function calls exactly the primitives its C body
forwards to and no others (in particular no error-introspection or
error-clearing primitive). -/
inductive Prim where
  | increfE (h : Handle)
  | decrefE (h : Handle)
  | callE (f : Handle) (pos : List Handle) (kw : List (Handle × Handle))
  | errOccurredE
  | errClearE
  | errPrintE
  | tstateGetE
  | tstateSwapE (h : Handle)
  | tstateGetInterpE (h : Handle)
deriving DecidableEq, Repr

/-- State of the embedded runtime as visible through the shim's surface. -/
structure Runtime where
  heap : List (Handle × PyObjectData)
  noneH : Handle
  trueH : Handle
  falseH : Handle
  errIndicator : Bool
  cur : Handle
  interpOf : List (Handle × Handle)
  trace : List Prim
deriving DecidableEq, Repr

/-- Lookup of the object stored at a handle (first matching entry). -/
def heapGet (heap : List (Handle × PyObjectData)) (h : Handle) :
    Option PyObjectData :=
  match heap with
  | [] => none
  | (k, o) :: rest => if k = h then some o else heapGet rest h

/-- Reference count observable at a handle (0 when the handle is not live). -/
def refcountOf (rt : Runtime) (h : Handle) : Nat :=
  match heapGet rt.heap h with
  | some o => o.refcount
  | none => 0

/-- Increment the reference count of the object at a handle. -/
def heapIncref (heap : List (Handle × PyObjectData)) (h : Handle) :
    List (Handle × PyObjectData) :=
  match heap with
  | [] => []
  | (k, o) :: rest =>
      if k = h then (k, { o with refcount := o.refcount + 1 }) :: rest
      else (k, o) :: heapIncref rest h

/-- Decrement the reference count of the object at a handle; when the
count drops to zero the runtime deallocates the object (the entry is
removed from the heap). -/
def heapDecref (heap : List (Handle × PyObjectData)) (h : Handle) :
    List (Handle × PyObjectData) :=
  match heap with
  | [] => []
  | (k, o) :: rest =>
      if k = h then
        if o.refcount ≤ 1 then rest
        else (k, { o with refcount := o.refcount - 1 }) :: rest
      else (k, o) :: heapDecref rest h

/-- Modelled from the spec: the runtime's reference-count increment
primitive (Py_INCREF), external to the repository.  It bumps the count of
the designated object by one. -/
def Py_INCREF (h : Handle) (rt : Runtime) : Runtime :=
  { rt with
      heap := heapIncref rt.heap h
      trace := rt.trace ++ [Prim.increfE h] }

/-- Modelled from the spec: the runtime's reference-count decrement
primitive (Py_DECREF), external to the repository.  It drops the count by
one and deallocates the object when the count reaches zero. -/
def Py_DECREF (h : Handle) (rt : Runtime) : Runtime :=
  { rt with
      heap := heapDecref rt.heap h
      trace := rt.trace ++ [Prim.decrefE h] }

/-- Modelled from the spec: the runtime's is-instance type rule — the
handle's type is an instance of the category (subclasses included). -/
def runtimeIsInstance (c : BuiltinCat) (rt : Runtime) (h : Handle) : Bool :=
  match heapGet rt.heap h with
  | some o => decide (c ∈ o.ty.instanceOf)
  | none => false

/-- Modelled from the spec: the runtime's exact-type rule — the handle's
type is exactly the category's type, subclasses excluded. -/
def runtimeIsExact (c : BuiltinCat) (rt : Runtime) (h : Handle) : Bool :=
  match heapGet rt.heap h with
  | some o => decide (o.ty.exactCat = some c)
  | none => false

/-- Modelled from the spec: the runtime's PyBool_Check primitive
(is-instance rule for booleans). -/
def PyBool_Check (rt : Runtime) (h : Handle) : Bool :=
  runtimeIsInstance BuiltinCat.boolT rt h

/-- Modelled from the spec: the runtime's PyBytes_Check primitive. -/
def PyBytes_Check (rt : Runtime) (h : Handle) : Bool :=
  runtimeIsInstance BuiltinCat.bytesT rt h

/-- Modelled from the spec: the runtime's PyCapsule_CheckExact primitive
(exact-type rule for capsules). -/
def PyCapsule_CheckExact (rt : Runtime) (h : Handle) : Bool :=
  runtimeIsExact BuiltinCat.capsuleT rt h

/-- Modelled from the spec: the runtime's PyCoro_CheckExact primitive
(exact-type rule for coroutines). -/
def PyCoro_CheckExact (rt : Runtime) (h : Handle) : Bool :=
  runtimeIsExact BuiltinCat.coroT rt h

/-- Modelled from the spec: the runtime's PyDict_Check primitive. -/
def PyDict_Check (rt : Runtime) (h : Handle) : Bool :=
  runtimeIsInstance BuiltinCat.dictT rt h

/-- Modelled from the spec: the runtime's PyFloat_Check primitive. -/
def PyFloat_Check (rt : Runtime) (h : Handle) : Bool :=
  runtimeIsInstance BuiltinCat.floatT rt h

/-- Modelled from the spec: the runtime's PyList_Check primitive. -/
def PyList_Check (rt : Runtime) (h : Handle) : Bool :=
  runtimeIsInstance BuiltinCat.listT rt h

/-- Modelled from the spec: the runtime's PyLong_Check primitive. -/
def PyLong_Check (rt : Runtime) (h : Handle) : Bool :=
  runtimeIsInstance BuiltinCat.longT rt h

/-- Modelled from the spec: the runtime's PyTuple_Check primitive. -/
def PyTuple_Check (rt : Runtime) (h : Handle) : Bool :=
  runtimeIsInstance BuiltinCat.tupleT rt h

/-- Modelled from the spec: the runtime's PyUnicode_Check primitive. -/
def PyUnicode_Check (rt : Runtime) (h : Handle) : Bool :=
  runtimeIsInstance BuiltinCat.unicodeT rt h

/-- Outcome of the runtime executing an opaque callable: either a result
handle (an object live in the heap) or a raised error.  The callable's
behaviour is an oracle parameter of the call primitives, since it is
arbitrary runtime-managed code. -/
inductive CallOutcome where
  | ok (result : Handle)
  | raises
deriving DecidableEq, Repr

/-- Modelled from the spec: the runtime's generic call protocol with
explicit positional arguments and keyword arguments.  On success it
returns the callee's result as a new reference (count incremented for
the recipient); on a raised error it sets the error indicator and
returns no result. -/
def callProto (callee : Handle → List Handle → CallOutcome)
    (f : Handle) (pos : List Handle) (kw : List (Handle × Handle))
    (rt : Runtime) : Runtime × Option Handle :=
  match callee f pos with
  | CallOutcome.ok r =>
      ({ rt with
          heap := heapIncref rt.heap r
          trace := rt.trace ++ [Prim.callE f pos kw] }, some r)
  | CallOutcome.raises =>
      ({ rt with
          errIndicator := true
          trace := rt.trace ++ [Prim.callE f pos kw] }, none)

/-- Modelled from the spec: PyObject_CallFunctionObjArgs — the variadic
NULL-terminated argument list is modelled as a Lean list of positional
arguments; no keyword arguments are passed. -/
def PyObject_CallFunctionObjArgs (callee : Handle → List Handle → CallOutcome)
    (f : Handle) (args : List Handle) (rt : Runtime) :
    Runtime × Option Handle :=
  callProto callee f args [] rt

/-- Modelled from the spec: the runtime's error-introspection primitive
(PyErr_Occurred), declared in python_wrapper.h for the caller's use; the
shim's own bodies never invoke it. -/
def PyErr_Occurred (rt : Runtime) : Runtime × Bool :=
  ({ rt with trace := rt.trace ++ [Prim.errOccurredE] }, rt.errIndicator)

/-- Modelled from the spec: the runtime's error-clearing primitive
(PyErr_Clear), declared in python_wrapper.h for the caller's use; the
shim's own bodies never invoke it. -/
def PyErr_Clear (rt : Runtime) : Runtime :=
  { rt with errIndicator := false, trace := rt.trace ++ [Prim.errClearE] }

/-- Modelled from the spec: the runtime's error-printing primitive
(PyErr_Print); clears the indicator after reporting.  The shim's own
bodies never invoke it. -/
def PyErr_Print (rt : Runtime) : Runtime :=
  { rt with errIndicator := false, trace := rt.trace ++ [Prim.errPrintE] }

/-- Modelled from the spec: PyThreadState_Get — reads the execution
context currently installed for the calling native thread. -/
def PyThreadState_Get (rt : Runtime) : Runtime × Handle :=
  ({ rt with trace := rt.trace ++ [Prim.tstateGetE] }, rt.cur)

/-- Modelled from the spec: PyThreadState_Swap — installs the given
execution context for the calling native thread and returns the
previously installed one. -/
def PyThreadState_Swap (ts : Handle) (rt : Runtime) : Runtime × Handle :=
  ({ rt with cur := ts, trace := rt.trace ++ [Prim.tstateSwapE ts] }, rt.cur)

/-- Lookup in the context-to-interpreter association. -/
def assocGet (m : List (Handle × Handle)) (k : Handle) : Option Handle :=
  match m with
  | [] => none
  | (k₀, v) :: rest => if k₀ = k then some v else assocGet rest k

/-- Modelled from the spec: PyThreadState_GetInterpreter — maps an
execution context to its owning interpreter. -/
def PyThreadState_GetInterpreter (ts : Handle) (rt : Runtime) :
    Runtime × Option Handle :=
  ({ rt with trace := rt.trace ++ [Prim.tstateGetInterpE ts] },
   assocGet rt.interpOf ts)

namespace PyCompatC

/-- Translation of zig_get_py_none (src/include/py_compat.c:8):
Py_INCREF(Py_None); return Py_None. -/
def zig_get_py_none (rt : Runtime) : Runtime × Handle :=
  (Py_INCREF rt.noneH rt, rt.noneH)

/-- Translation of zig_get_py_true (src/include/py_compat.c:14). -/
def zig_get_py_true (rt : Runtime) : Runtime × Handle :=
  (Py_INCREF rt.trueH rt, rt.trueH)

/-- Translation of zig_get_py_false (src/include/py_compat.c:20). -/
def zig_get_py_false (rt : Runtime) : Runtime × Handle :=
  (Py_INCREF rt.falseH rt, rt.falseH)

/-- Translation of zig_is_py_none (src/include/py_compat.c:26):
return obj == Py_None. -/
def zig_is_py_none (obj : Handle) (rt : Runtime) : Runtime × Bool :=
  (rt, decide (obj = rt.noneH))

/-- Translation of zig_call_function_with_arg (src/include/py_compat.c:31):
return PyObject_CallFunctionObjArgs(func, arg, NULL). -/
def zig_call_function_with_arg (callee : Handle → List Handle → CallOutcome)
    (func arg : Handle) (rt : Runtime) : Runtime × Option Handle :=
  PyObject_CallFunctionObjArgs callee func [arg] rt

/-- Translation of zig_py_thread_state_get (src/include/py_compat.c:36). -/
def zig_py_thread_state_get (rt : Runtime) : Runtime × Handle :=
  PyThreadState_Get rt

/-- Translation of zig_py_thread_state_swap (src/include/py_compat.c:40). -/
def zig_py_thread_state_swap (ts : Handle) (rt : Runtime) : Runtime × Handle :=
  PyThreadState_Swap ts rt

/-- Translation of zig_py_thread_state_get_interp
(src/include/py_compat.c:44). -/
def zig_py_thread_state_get_interp (ts : Handle) (rt : Runtime) :
    Runtime × Option Handle :=
  PyThreadState_GetInterpreter ts rt

/-- Translation of zig_py_incref (src/include/py_compat.c:49). -/
def zig_py_incref (obj : Handle) (rt : Runtime) : Runtime :=
  Py_INCREF obj rt

/-- Translation of zig_py_decref (src/include/py_compat.c:53). -/
def zig_py_decref (obj : Handle) (rt : Runtime) : Runtime :=
  Py_DECREF obj rt

/-- Translation of zig_py_bool_check (src/include/py_compat.c:57). -/
def zig_py_bool_check (obj : Handle) (rt : Runtime) : Runtime × Bool :=
  (rt, PyBool_Check rt obj)

/-- Translation of zig_py_bytes_check (src/include/py_compat.c:61). -/
def zig_py_bytes_check (obj : Handle) (rt : Runtime) : Runtime × Bool :=
  (rt, PyBytes_Check rt obj)

/-- Translation of zig_py_capsule_check_exact (src/include/py_compat.c:65). -/
def zig_py_capsule_check_exact (obj : Handle) (rt : Runtime) : Runtime × Bool :=
  (rt, PyCapsule_CheckExact rt obj)

/-- Translation of zig_py_coro_check_exact (src/include/py_compat.c:69). -/
def zig_py_coro_check_exact (obj : Handle) (rt : Runtime) : Runtime × Bool :=
  (rt, PyCoro_CheckExact rt obj)

/-- Translation of zig_py_dict_check (src/include/py_compat.c:73). -/
def zig_py_dict_check (obj : Handle) (rt : Runtime) : Runtime × Bool :=
  (rt, PyDict_Check rt obj)

/-- Translation of zig_py_float_check (src/include/py_compat.c:77). -/
def zig_py_float_check (obj : Handle) (rt : Runtime) : Runtime × Bool :=
  (rt, PyFloat_Check rt obj)

/-- Translation of zig_py_list_check (src/include/py_compat.c:81). -/
def zig_py_list_check (obj : Handle) (rt : Runtime) : Runtime × Bool :=
  (rt, PyList_Check rt obj)

/-- Translation of zig_py_long_check (src/include/py_compat.c:85). -/
def zig_py_long_check (obj : Handle) (rt : Runtime) : Runtime × Bool :=
  (rt, PyLong_Check rt obj)

/-- Translation of zig_py_tuple_check (src/include/py_compat.c:89). -/
def zig_py_tuple_check (obj : Handle) (rt : Runtime) : Runtime × Bool :=
  (rt, PyTuple_Check rt obj)

/-- Translation of zig_py_unicode_check (src/include/py_compat.c:93). -/
def zig_py_unicode_check (obj : Handle) (rt : Runtime) : Runtime × Bool :=
  (rt, PyUnicode_Check rt obj)

end PyCompatC

namespace PyCompatH

/-- Translation of zig_isNone (src/include/py_compat.h:41):
return obj == Py_None. -/
def zig_isNone (obj : Handle) (rt : Runtime) : Runtime × Bool :=
  (rt, decide (obj = rt.noneH))

/-- Translation of zig_get_py_none (src/include/py_compat.h:46):
Py_INCREF(Py_None); return Py_None. -/
def zig_get_py_none (rt : Runtime) : Runtime × Handle :=
  (Py_INCREF rt.noneH rt, rt.noneH)

/-- Translation of zig_get_py_true (src/include/py_compat.h:51). -/
def zig_get_py_true (rt : Runtime) : Runtime × Handle :=
  (Py_INCREF rt.trueH rt, rt.trueH)

/-- Translation of zig_get_py_false (src/include/py_compat.h:56). -/
def zig_get_py_false (rt : Runtime) : Runtime × Handle :=
  (Py_INCREF rt.falseH rt, rt.falseH)

/-- Translation of zig_call_function_with_arg (src/include/py_compat.h:62):
return PyObject_CallFunctionObjArgs(func, arg, NULL). -/
def zig_call_function_with_arg (callee : Handle → List Handle → CallOutcome)
    (func arg : Handle) (rt : Runtime) : Runtime × Option Handle :=
  PyObject_CallFunctionObjArgs callee func [arg] rt

end PyCompatH

namespace PythonWrapperH

/-- Translation of zig_getPyNone (src/include/python_wrapper.h:97):
return Py_None — no reference-count increment in the source. -/
def zig_getPyNone (rt : Runtime) : Runtime × Handle :=
  (rt, rt.noneH)

/-- Translation of zig_getPyTrue (src/include/python_wrapper.h:101):
return Py_True — no reference-count increment in the source. -/
def zig_getPyTrue (rt : Runtime) : Runtime × Handle :=
  (rt, rt.trueH)

/-- Translation of zig_getPyFalse (src/include/python_wrapper.h:105):
return Py_False — no reference-count increment in the source. -/
def zig_getPyFalse (rt : Runtime) : Runtime × Handle :=
  (rt, rt.falseH)

/-- Translation of zig_incref (src/include/python_wrapper.h:109). -/
def zig_incref (obj : Handle) (rt : Runtime) : Runtime :=
  Py_INCREF obj rt

/-- Translation of zig_decref (src/include/python_wrapper.h:113). -/
def zig_decref (obj : Handle) (rt : Runtime) : Runtime :=
  Py_DECREF obj rt

/-- Translation of zig_isNone (src/include/python_wrapper.h:117):
return obj == Py_None. -/
def zig_isNone (obj : Handle) (rt : Runtime) : Runtime × Bool :=
  (rt, decide (obj = rt.noneH))

end PythonWrapperH

/-- Concrete type descriptor for the null singleton's type. -/
def tyNoneI : TypeInfo :=
  { exactCat := some BuiltinCat.noneT, instanceOf := [BuiltinCat.noneT] }

/-- Concrete type descriptor for booleans (instances of the integer
category as well, as in the wrapped runtime). -/
def tyBoolI : TypeInfo :=
  { exactCat := some BuiltinCat.boolT
    instanceOf := [BuiltinCat.boolT, BuiltinCat.longT] }

/-- Concrete type descriptor for capsules. -/
def tyCapsuleI : TypeInfo :=
  { exactCat := some BuiltinCat.capsuleT, instanceOf := [BuiltinCat.capsuleT] }

/-- Concrete type descriptor for a strict subclass of the mapping
category (is-instance of dict, but not exactly dict). -/
def tyDictSub : TypeInfo :=
  { exactCat := none, instanceOf := [BuiltinCat.dictT] }

/-- Concrete type descriptor for a plain function object (none of the
ten checked categories). -/
def tyFuncI : TypeInfo :=
  { exactCat := none, instanceOf := [] }

/-- Concrete runtime state used to evaluate the shim on explicit inputs:
the three singletons live at addresses 1, 2, 3; a capsule at 7, a dict
subclass at 8, two function objects at 10 and 11; execution context 20 is
current and contexts 20 and 21 belong to interpreter 100. -/
def rt0 : Runtime :=
  { heap := [(1, ⟨tyNoneI, 5⟩), (2, ⟨tyBoolI, 3⟩), (3, ⟨tyBoolI, 4⟩),
             (7, ⟨tyCapsuleI, 1⟩), (8, ⟨tyDictSub, 2⟩),
             (10, ⟨tyFuncI, 2⟩), (11, ⟨tyFuncI, 2⟩)]
    noneH := 1
    trueH := 2
    falseH := 3
    errIndicator := false
    cur := 20
    interpOf := [(20, 100), (21, 100)]
    trace := [] }

/-- A runtime with the same singleton addresses as rt0 but an empty heap:
every handle is dangling, which exercises the no-dereference property of
the identity check. -/
def rt1 : Runtime :=
  { rt0 with heap := [] }

/-- Concrete callable behaviour: the function object at address 10
returns the capsule at address 7; every other callable raises. -/
def calleeA : Handle → List Handle → CallOutcome :=
  fun f _ => if f = 10 then CallOutcome.ok 7 else CallOutcome.raises

theorem heapGet_heapIncref (heap : List (Handle × PyObjectData)) (h : Handle) :
    heapGet (heapIncref heap h) h =
      Option.map (fun o => { o with refcount := o.refcount + 1 })
        (heapGet heap h) := by
  induction heap with
  | nil => rfl
  | cons p rest ih =>
      obtain ⟨k, o⟩ := p
      by_cases hk : k = h
      · simp [heapIncref, heapGet, hk]
      · simp [heapIncref, heapGet, hk, ih]

theorem heapDecref_heapIncref (heap : List (Handle × PyObjectData)) (h : Handle)
    (o : PyObjectData) (hget : heapGet heap h = some o) (hc : 1 ≤ o.refcount) :
    heapDecref (heapIncref heap h) h = heap := by
  induction heap with
  | nil => simp [heapGet] at hget
  | cons p rest ih =>
      obtain ⟨k, o₀⟩ := p
      by_cases hk : k = h
      · simp [heapGet, hk] at hget
        subst hget
        simp [heapIncref, heapDecref, hk]
        omega
      · simp [heapGet, hk] at hget
        simp [heapIncref, heapDecref, hk, ih hget]

theorem refcountOf_Py_INCREF (rt : Runtime) (h : Handle)
    (hs : (heapGet rt.heap h).isSome = true) :
    refcountOf (Py_INCREF h rt) h = refcountOf rt h + 1 := by
  cases hg : heapGet rt.heap h with
  | none => rw [hg] at hs; simp at hs
  | some o => simp [refcountOf, Py_INCREF, heapGet_heapIncref, hg]

/-- C1 counterexample: the python_wrapper.h copy of the singleton
accessor, zig_getPyNone, returns the canonical null singleton without
incrementing its reference count, so the claim as stated — that every
copy of the accessor increments the count by exactly one — is false at
the concrete runtime rt0. -/
theorem c1_counterexample :
    ¬ (refcountOf (PythonWrapperH.zig_getPyNone rt0).1 rt0.noneH
        = refcountOf rt0 rt0.noneH + 1) := by
  decide

/-- C1 (amended): the zig_get_py_none/true/false accessors of
py_compat.c and py_compat.h return the corresponding canonical singleton
with its reference count incremented by exactly one (new-reference
semantics); the zig_getPyNone/True/False accessors of python_wrapper.h
return the corresponding canonical singleton with its reference count
unchanged (borrowed-reference semantics). -/
theorem c1_accessors_new_reference (rt : Runtime)
    (hn : (heapGet rt.heap rt.noneH).isSome = true)
    (ht : (heapGet rt.heap rt.trueH).isSome = true)
    (hf : (heapGet rt.heap rt.falseH).isSome = true) :
    ((PyCompatC.zig_get_py_none rt).2 = rt.noneH
      ∧ refcountOf (PyCompatC.zig_get_py_none rt).1 rt.noneH
          = refcountOf rt rt.noneH + 1)
    ∧ ((PyCompatC.zig_get_py_true rt).2 = rt.trueH
      ∧ refcountOf (PyCompatC.zig_get_py_true rt).1 rt.trueH
          = refcountOf rt rt.trueH + 1)
    ∧ ((PyCompatC.zig_get_py_false rt).2 = rt.falseH
      ∧ refcountOf (PyCompatC.zig_get_py_false rt).1 rt.falseH
          = refcountOf rt rt.falseH + 1)
    ∧ ((PyCompatH.zig_get_py_none rt).2 = rt.noneH
      ∧ refcountOf (PyCompatH.zig_get_py_none rt).1 rt.noneH
          = refcountOf rt rt.noneH + 1)
    ∧ ((PyCompatH.zig_get_py_true rt).2 = rt.trueH
      ∧ refcountOf (PyCompatH.zig_get_py_true rt).1 rt.trueH
          = refcountOf rt rt.trueH + 1)
    ∧ ((PyCompatH.zig_get_py_false rt).2 = rt.falseH
      ∧ refcountOf (PyCompatH.zig_get_py_false rt).1 rt.falseH
          = refcountOf rt rt.falseH + 1)
    ∧ ((PythonWrapperH.zig_getPyNone rt).2 = rt.noneH
      ∧ refcountOf (PythonWrapperH.zig_getPyNone rt).1 rt.noneH
          = refcountOf rt rt.noneH)
    ∧ ((PythonWrapperH.zig_getPyTrue rt).2 = rt.trueH
      ∧ refcountOf (PythonWrapperH.zig_getPyTrue rt).1 rt.trueH
          = refcountOf rt rt.trueH)
    ∧ ((PythonWrapperH.zig_getPyFalse rt).2 = rt.falseH
      ∧ refcountOf (PythonWrapperH.zig_getPyFalse rt).1 rt.falseH
          = refcountOf rt rt.falseH) := by
  refine ⟨⟨rfl, ?_⟩, ⟨rfl, ?_⟩, ⟨rfl, ?_⟩, ⟨rfl, ?_⟩, ⟨rfl, ?_⟩, ⟨rfl, ?_⟩,
    ⟨rfl, rfl⟩, ⟨rfl, rfl⟩, ⟨rfl, rfl⟩⟩
  · exact refcountOf_Py_INCREF rt rt.noneH hn
  · exact refcountOf_Py_INCREF rt rt.trueH ht
  · exact refcountOf_Py_INCREF rt rt.falseH hf
  · exact refcountOf_Py_INCREF rt rt.noneH hn
  · exact refcountOf_Py_INCREF rt rt.trueH ht
  · exact refcountOf_Py_INCREF rt rt.falseH hf

/-- C1 witness: the amended accessor contract instantiated at the
concrete runtime rt0. -/
theorem c1_accessors_new_reference_witness :
    (heapGet rt0.heap rt0.noneH).isSome = true
    ∧ refcountOf (PyCompatC.zig_get_py_none rt0).1 rt0.noneH
        = refcountOf rt0 rt0.noneH + 1
    ∧ refcountOf (PythonWrapperH.zig_getPyNone rt0).1 rt0.noneH
        = refcountOf rt0 rt0.noneH :=
  ⟨by decide,
   (c1_accessors_new_reference rt0 (by decide) (by decide) (by decide)).1.2,
   (c1_accessors_new_reference rt0 (by decide) (by decide)
     (by decide)).2.2.2.2.2.2.1.2⟩

/-- C2: zig_call_function_with_arg forwards to the runtime's call
protocol with exactly one positional argument and no keyword arguments;
when the callee returns a result it yields that result as a new
reference (count incremented by one), and when the callee raises it
yields the no-result sentinel. -/
theorem c2_call_with_arg (callee : Handle → List Handle → CallOutcome)
    (func arg : Handle) (rt : Runtime) :
    (PyCompatC.zig_call_function_with_arg callee func arg rt).1.trace
      = rt.trace ++ [Prim.callE func [arg] []]
    ∧ (∀ r, callee func [arg] = CallOutcome.ok r →
        (PyCompatC.zig_call_function_with_arg callee func arg rt).2 = some r
        ∧ ((heapGet rt.heap r).isSome = true →
            refcountOf (PyCompatC.zig_call_function_with_arg callee func arg rt).1 r
              = refcountOf rt r + 1))
    ∧ (callee func [arg] = CallOutcome.raises →
        (PyCompatC.zig_call_function_with_arg callee func arg rt).2 = none) := by
  cases hc : callee func [arg] with
  | ok r₀ =>
      refine ⟨?_, ?_, ?_⟩
      · simp [PyCompatC.zig_call_function_with_arg,
          PyObject_CallFunctionObjArgs, callProto, hc]
      · intro r hr
        injection hr with hr₀
        subst hr₀
        refine ⟨?_, fun hs => ?_⟩
        · simp [PyCompatC.zig_call_function_with_arg,
            PyObject_CallFunctionObjArgs, callProto, hc]
        · cases hg : heapGet rt.heap r₀ with
          | none => rw [hg] at hs; simp at hs
          | some o =>
              simp [PyCompatC.zig_call_function_with_arg,
                PyObject_CallFunctionObjArgs, callProto, hc, refcountOf,
                heapGet_heapIncref, hg]
      · intro hr
        exact absurd hr (by simp)
  | raises =>
      refine ⟨?_, ?_, ?_⟩
      · simp [PyCompatC.zig_call_function_with_arg,
          PyObject_CallFunctionObjArgs, callProto, hc]
      · intro r hr
        exact absurd hr (by simp)
      · intro hr
        simp [PyCompatC.zig_call_function_with_arg,
          PyObject_CallFunctionObjArgs, callProto, hc]

/-- C2 witness: calling the function object at 10 with argument 2 in rt0
succeeds with the capsule at 7 as a new reference. -/
theorem c2_call_with_arg_witness :
    calleeA 10 [2] = CallOutcome.ok 7
    ∧ (heapGet rt0.heap 7).isSome = true
    ∧ (PyCompatC.zig_call_function_with_arg calleeA 10 2 rt0).2 = some 7
    ∧ refcountOf (PyCompatC.zig_call_function_with_arg calleeA 10 2 rt0).1 7
        = refcountOf rt0 7 + 1 :=
  ⟨by decide, by decide,
   ((c2_call_with_arg calleeA 10 2 rt0).2.1 7 (by decide)).1,
   ((c2_call_with_arg calleeA 10 2 rt0).2.1 7 (by decide)).2 (by decide)⟩

/-- C3: on every path zig_call_function_with_arg invokes only the call
primitive — it never invokes the runtime's error-introspection,
error-clearing or error-printing primitives — and when the call fails
the error indicator is left set, the heap, the current context and the
singleton addresses are untouched, while on success the error indicator
is exactly what it was before the call. -/
theorem c3_no_error_handling (callee : Handle → List Handle → CallOutcome)
    (func arg : Handle) (rt : Runtime) :
    (PyCompatC.zig_call_function_with_arg callee func arg rt).1.trace
      = rt.trace ++ [Prim.callE func [arg] []]
    ∧ (Prim.errOccurredE ∈ (PyCompatC.zig_call_function_with_arg callee func arg rt).1.trace
        → Prim.errOccurredE ∈ rt.trace)
    ∧ (Prim.errClearE ∈ (PyCompatC.zig_call_function_with_arg callee func arg rt).1.trace
        → Prim.errClearE ∈ rt.trace)
    ∧ (Prim.errPrintE ∈ (PyCompatC.zig_call_function_with_arg callee func arg rt).1.trace
        → Prim.errPrintE ∈ rt.trace)
    ∧ ((PyCompatC.zig_call_function_with_arg callee func arg rt).2 = none →
        (PyCompatC.zig_call_function_with_arg callee func arg rt).1.errIndicator = true
        ∧ (PyCompatC.zig_call_function_with_arg callee func arg rt).1.heap = rt.heap
        ∧ (PyCompatC.zig_call_function_with_arg callee func arg rt).1.cur = rt.cur
        ∧ (PyCompatC.zig_call_function_with_arg callee func arg rt).1.noneH = rt.noneH)
    ∧ ((PyCompatC.zig_call_function_with_arg callee func arg rt).2 ≠ none →
        (PyCompatC.zig_call_function_with_arg callee func arg rt).1.errIndicator
          = rt.errIndicator) := by
  cases hc : callee func [arg] <;>
    simp [PyCompatC.zig_call_function_with_arg, PyObject_CallFunctionObjArgs,
      callProto, hc]

/-- C3 witness: the call of the non-callable object at 11 in rt0 fails:
the sentinel is returned, the error indicator is set and the heap is
untouched, and the trace gained only the call event. -/
theorem c3_no_error_handling_witness :
    (PyCompatC.zig_call_function_with_arg calleeA 11 2 rt0).2 = none
    ∧ (PyCompatC.zig_call_function_with_arg calleeA 11 2 rt0).1.errIndicator = true
    ∧ (PyCompatC.zig_call_function_with_arg calleeA 11 2 rt0).1.heap = rt0.heap
    ∧ (PyCompatC.zig_call_function_with_arg calleeA 11 2 rt0).1.trace
        = rt0.trace ++ [Prim.callE 11 [2] []] :=
  ⟨by decide,
   ((c3_no_error_handling calleeA 11 2 rt0).2.2.2.2.1 (by decide)).1,
   ((c3_no_error_handling calleeA 11 2 rt0).2.2.2.2.1 (by decide)).2.1,
   (c3_no_error_handling calleeA 11 2 rt0).1⟩

/-- C4: each of the ten type-check predicates answers exactly the
runtime's type rule for its category, preserving the per-category
distinction: capsule and coroutine use the exact-type rule, the other
eight use the is-instance rule. -/
theorem c4_type_check_predicates (rt : Runtime) (h : Handle)
    (o : PyObjectData) (hget : heapGet rt.heap h = some o) :
    ((PyCompatC.zig_py_bool_check h rt).2 = true
      ↔ BuiltinCat.boolT ∈ o.ty.instanceOf)
    ∧ ((PyCompatC.zig_py_bytes_check h rt).2 = true
      ↔ BuiltinCat.bytesT ∈ o.ty.instanceOf)
    ∧ ((PyCompatC.zig_py_capsule_check_exact h rt).2 = true
      ↔ o.ty.exactCat = some BuiltinCat.capsuleT)
    ∧ ((PyCompatC.zig_py_coro_check_exact h rt).2 = true
      ↔ o.ty.exactCat = some BuiltinCat.coroT)
    ∧ ((PyCompatC.zig_py_dict_check h rt).2 = true
      ↔ BuiltinCat.dictT ∈ o.ty.instanceOf)
    ∧ ((PyCompatC.zig_py_float_check h rt).2 = true
      ↔ BuiltinCat.floatT ∈ o.ty.instanceOf)
    ∧ ((PyCompatC.zig_py_list_check h rt).2 = true
      ↔ BuiltinCat.listT ∈ o.ty.instanceOf)
    ∧ ((PyCompatC.zig_py_long_check h rt).2 = true
      ↔ BuiltinCat.longT ∈ o.ty.instanceOf)
    ∧ ((PyCompatC.zig_py_tuple_check h rt).2 = true
      ↔ BuiltinCat.tupleT ∈ o.ty.instanceOf)
    ∧ ((PyCompatC.zig_py_unicode_check h rt).2 = true
      ↔ BuiltinCat.unicodeT ∈ o.ty.instanceOf) := by
  simp [PyCompatC.zig_py_bool_check, PyCompatC.zig_py_bytes_check,
    PyCompatC.zig_py_capsule_check_exact, PyCompatC.zig_py_coro_check_exact,
    PyCompatC.zig_py_dict_check, PyCompatC.zig_py_float_check,
    PyCompatC.zig_py_list_check, PyCompatC.zig_py_long_check,
    PyCompatC.zig_py_tuple_check, PyCompatC.zig_py_unicode_check,
    PyBool_Check, PyBytes_Check, PyCapsule_CheckExact, PyCoro_CheckExact,
    PyDict_Check, PyFloat_Check, PyList_Check, PyLong_Check, PyTuple_Check,
    PyUnicode_Check, runtimeIsInstance, runtimeIsExact, hget]

/-- C4 witness: the contract instantiated at the capsule object stored
at address 7 of rt0 — the exact capsule check holds of it and the
boolean check does not. -/
theorem c4_type_check_predicates_witness :
    heapGet rt0.heap 7 = some ⟨tyCapsuleI, 1⟩
    ∧ ((PyCompatC.zig_py_capsule_check_exact 7 rt0).2 = true
      ↔ tyCapsuleI.exactCat = some BuiltinCat.capsuleT)
    ∧ ((PyCompatC.zig_py_bool_check 7 rt0).2 = true
      ↔ BuiltinCat.boolT ∈ tyCapsuleI.instanceOf) :=
  ⟨by decide,
   (c4_type_check_predicates rt0 7 ⟨tyCapsuleI, 1⟩ (by decide)).2.2.1,
   (c4_type_check_predicates rt0 7 ⟨tyCapsuleI, 1⟩ (by decide)).1⟩

/-- C5: every copy of the identity check answers true exactly when the
argument handle is identity-equal (address equality) to the canonical
null singleton — in the py_compat.c formulation, to the handle that
zig_get_py_none returns — and false for every other handle. -/
theorem c5_is_none_identity (rt : Runtime) (h : Handle) :
    ((PyCompatC.zig_is_py_none h rt).2 = true
      ↔ h = (PyCompatC.zig_get_py_none rt).2)
    ∧ ((PyCompatH.zig_isNone h rt).2 = true ↔ h = rt.noneH)
    ∧ ((PythonWrapperH.zig_isNone h rt).2 = true ↔ h = rt.noneH) := by
  simp [PyCompatC.zig_is_py_none, PyCompatC.zig_get_py_none,
    PyCompatH.zig_isNone, PythonWrapperH.zig_isNone]

/-- C6: swapping the execution context returns the context that was
current for the calling native thread immediately before the call, after
the swap the read accessor returns the newly installed context, and the
read accessor is single-valued (at most one context is current per
thread). -/
theorem c6_swap_context (rt : Runtime) (newCtx : Handle) :
    (PyCompatC.zig_py_thread_state_swap newCtx rt).2
      = (PyCompatC.zig_py_thread_state_get rt).2
    ∧ (PyCompatC.zig_py_thread_state_get
        (PyCompatC.zig_py_thread_state_swap newCtx rt).1).2 = newCtx
    ∧ ∀ c₁ c₂ : Handle, (PyCompatC.zig_py_thread_state_get rt).2 = c₁ →
        (PyCompatC.zig_py_thread_state_get rt).2 = c₂ → c₁ = c₂ :=
  ⟨rfl, rfl, fun c₁ c₂ h₁ h₂ => h₁.symm.trans h₂⟩

/-- C6 witness: swapping context 21 into rt0 (whose current context is
20) returns 20, and reading afterwards returns 21. -/
theorem c6_swap_context_witness :
    (PyCompatC.zig_py_thread_state_swap 21 rt0).2
      = (PyCompatC.zig_py_thread_state_get rt0).2
    ∧ (PyCompatC.zig_py_thread_state_get
        (PyCompatC.zig_py_thread_state_swap 21 rt0).1).2 = 21
    ∧ (20 : Handle) = 20 :=
  ⟨(c6_swap_context rt0 21).1, (c6_swap_context rt0 21).2.1,
   (c6_swap_context rt0 21).2.2 20 20 (by decide) (by decide)⟩

/-- C7: for a handle whose reference count is at least one, incref
immediately followed by decref restores the heap exactly — the handle is
still live with the same object and the same reference count — in both
the py_compat.c copy (zig_py_incref/zig_py_decref) and the
python_wrapper.h copy (zig_incref/zig_decref). -/
theorem c7_incref_decref (rt : Runtime) (h : Handle) (o : PyObjectData)
    (hget : heapGet rt.heap h = some o) (hc : 1 ≤ o.refcount) :
    (PyCompatC.zig_py_decref h (PyCompatC.zig_py_incref h rt)).heap = rt.heap
    ∧ heapGet (PyCompatC.zig_py_decref h (PyCompatC.zig_py_incref h rt)).heap h
        = some o
    ∧ refcountOf (PyCompatC.zig_py_decref h (PyCompatC.zig_py_incref h rt)) h
        = refcountOf rt h
    ∧ (PythonWrapperH.zig_decref h (PythonWrapperH.zig_incref h rt)).heap
        = rt.heap
    ∧ heapGet (PythonWrapperH.zig_decref h (PythonWrapperH.zig_incref h rt)).heap h
        = some o := by
  have key : heapDecref (heapIncref rt.heap h) h = rt.heap :=
    heapDecref_heapIncref rt.heap h o hget hc
  refine ⟨?_, ?_, ?_, ?_, ?_⟩ <;>
    simp [PyCompatC.zig_py_decref, PyCompatC.zig_py_incref,
      PythonWrapperH.zig_decref, PythonWrapperH.zig_incref,
      Py_INCREF, Py_DECREF, refcountOf, key, hget]

/-- C7 witness: the incref-then-decref round trip at the null singleton
of rt0 (count 5) restores the heap. -/
theorem c7_incref_decref_witness :
    heapGet rt0.heap 1 = some ⟨tyNoneI, 5⟩
    ∧ (PyCompatC.zig_py_decref 1 (PyCompatC.zig_py_incref 1 rt0)).heap
        = rt0.heap :=
  ⟨by decide,
   (c7_incref_decref rt0 1 ⟨tyNoneI, 5⟩ (by decide) (by decide)).1⟩

/-- C8: every type-check predicate and every copy of the identity check
treats its argument as borrowed: the runtime state each returns is
exactly the input state, so the argument's reference count and the
object it designates are unchanged. -/
theorem c8_borrowed_inspection (rt : Runtime) (h : Handle) :
    (PyCompatC.zig_py_bool_check h rt).1 = rt
    ∧ (PyCompatC.zig_py_bytes_check h rt).1 = rt
    ∧ (PyCompatC.zig_py_capsule_check_exact h rt).1 = rt
    ∧ (PyCompatC.zig_py_coro_check_exact h rt).1 = rt
    ∧ (PyCompatC.zig_py_dict_check h rt).1 = rt
    ∧ (PyCompatC.zig_py_float_check h rt).1 = rt
    ∧ (PyCompatC.zig_py_list_check h rt).1 = rt
    ∧ (PyCompatC.zig_py_long_check h rt).1 = rt
    ∧ (PyCompatC.zig_py_tuple_check h rt).1 = rt
    ∧ (PyCompatC.zig_py_unicode_check h rt).1 = rt
    ∧ (PyCompatC.zig_is_py_none h rt).1 = rt
    ∧ (PyCompatH.zig_isNone h rt).1 = rt
    ∧ (PythonWrapperH.zig_isNone h rt).1 = rt
    ∧ refcountOf (PyCompatC.zig_py_bool_check h rt).1 h = refcountOf rt h
    ∧ heapGet (PyCompatC.zig_is_py_none h rt).1.heap h = heapGet rt.heap h :=
  ⟨rfl, rfl, rfl, rfl, rfl, rfl, rfl, rfl, rfl, rfl, rfl, rfl, rfl, rfl, rfl⟩

/-- C9 counterexample: at the concrete runtime rt0 the two copies of the
null-singleton accessor disagree on their reference-count effect — the
py_compat.c copy leaves the singleton's count at one more than the
python_wrapper.h copy does — so the claim that duplicate definitions
compute the same reference-count effect for every input is false. -/
theorem c9_counterexample :
    ¬ (refcountOf (PythonWrapperH.zig_getPyNone rt0).1 rt0.noneH
        = refcountOf (PyCompatC.zig_get_py_none rt0).1 rt0.noneH) := by
  decide

/-- C9 (amended): every same-named entry point defined in more than one
file is behaviourally equivalent across its copies (the accessors and
the single-argument invocation shared by py_compat.c and py_compat.h,
the identity check shared by py_compat.h and python_wrapper.h, and the
incref/decref forwarders), but the differently-named accessor pair is
not equivalent: zig_getPyNone/True/False of python_wrapper.h return the
same singleton handle as zig_get_py_none/true/false while leaving the
runtime state — in particular the singleton's reference count —
completely unchanged; the copies also differ in more than the
execution-context accessors. -/
theorem c9_duplicate_equivalence (rt : Runtime)
    (callee : Handle → List Handle → CallOutcome) (func arg obj : Handle) :
    PyCompatC.zig_get_py_none rt = PyCompatH.zig_get_py_none rt
    ∧ PyCompatC.zig_get_py_true rt = PyCompatH.zig_get_py_true rt
    ∧ PyCompatC.zig_get_py_false rt = PyCompatH.zig_get_py_false rt
    ∧ PyCompatC.zig_call_function_with_arg callee func arg rt
        = PyCompatH.zig_call_function_with_arg callee func arg rt
    ∧ PyCompatC.zig_is_py_none obj rt = PyCompatH.zig_isNone obj rt
    ∧ PyCompatH.zig_isNone obj rt = PythonWrapperH.zig_isNone obj rt
    ∧ PyCompatC.zig_py_incref obj rt = PythonWrapperH.zig_incref obj rt
    ∧ PyCompatC.zig_py_decref obj rt = PythonWrapperH.zig_decref obj rt
    ∧ (PythonWrapperH.zig_getPyNone rt).2 = (PyCompatC.zig_get_py_none rt).2
    ∧ (PythonWrapperH.zig_getPyTrue rt).2 = (PyCompatC.zig_get_py_true rt).2
    ∧ (PythonWrapperH.zig_getPyFalse rt).2 = (PyCompatC.zig_get_py_false rt).2
    ∧ (PythonWrapperH.zig_getPyNone rt).1 = rt
    ∧ (PythonWrapperH.zig_getPyTrue rt).1 = rt
    ∧ (PythonWrapperH.zig_getPyFalse rt).1 = rt :=
  ⟨rfl, rfl, rfl, rfl, rfl, rfl, rfl, rfl, rfl, rfl, rfl, rfl, rfl, rfl⟩

/-- C10: every copy of the identity check is a pure, total address
comparison: its answer is the address-equality test against the
canonical null singleton for every handle value (the null address and
dangling handles included), and it never dereferences its argument —
runtimes differing arbitrarily in their heaps but agreeing on the
singleton's address get identical answers. -/
theorem c10_pure_pointer_comparison (h : Handle) (rt rt₂ : Runtime) :
    (PyCompatC.zig_is_py_none h rt).2 = decide (h = rt.noneH)
    ∧ (PyCompatH.zig_isNone h rt).2 = decide (h = rt.noneH)
    ∧ (PythonWrapperH.zig_isNone h rt).2 = decide (h = rt.noneH)
    ∧ (rt.noneH = rt₂.noneH →
        (PyCompatC.zig_is_py_none h rt).2 = (PyCompatC.zig_is_py_none h rt₂).2
        ∧ (PyCompatH.zig_isNone h rt).2 = (PyCompatH.zig_isNone h rt₂).2
        ∧ (PythonWrapperH.zig_isNone h rt).2
            = (PythonWrapperH.zig_isNone h rt₂).2) :=
  ⟨rfl, rfl, rfl, fun he => by
    simp [PyCompatC.zig_is_py_none, PyCompatH.zig_isNone,
      PythonWrapperH.zig_isNone, he]⟩

/-- C10 witness: the null address 0 and the dangling singleton address 1
evaluated in rt0 and in rt1 (same singleton addresses, empty heap) give
identical answers. -/
theorem c10_pure_pointer_comparison_witness :
    rt0.noneH = rt1.noneH
    ∧ (PyCompatC.zig_is_py_none 0 rt0).2 = (PyCompatC.zig_is_py_none 0 rt1).2
    ∧ (PyCompatC.zig_is_py_none 0 rt0).2 = decide ((0 : Handle) = rt0.noneH) :=
  ⟨by decide,
   ((c10_pure_pointer_comparison 0 rt0 rt1).2.2.2 (by decide)).1,
   (c10_pure_pointer_comparison 0 rt0 rt1).1⟩
